import Mathlib

/-
Verification of the networkzero socket lifecycle and timeout-polling core
against its natural-language specification.

The repository has two modules, each with its own `Sockets` registry:
  * sockets.py   — registry keyed by (normalized address, socket type);
  * messaging.py — an older registry keyed by address alone.
Both are embedded below.  zmq, marshal, core.address and the config/exc
modules are external collaborators: they are modelled by parameters
(`Env`, the `ser`/`deser` functions) or by `Option`/`Except` results.
-/

set_option autoImplicit false

namespace NetworkZero

/-- Socket roles: the four zmq socket type codes the repository uses
(zmq.REQ = REQUESTER, zmq.REP = REPLIER, zmq.PUB = PUBLISHER,
zmq.SUB = SUBSCRIBER). -/
inductive Role where
  | REQ
  | REP
  | PUB
  | SUB
deriving DecidableEq, Repr

/-- Python exceptions the embedded code can raise. -/
inductive PyExc where
  | socketAlreadyExists
  | socketTimedOut
  | nameError
  | zmqError
  | invalidAddress
  | valueError
deriving DecidableEq, Repr

instance {ε α : Type} [DecidableEq ε] [DecidableEq α] : DecidableEq (Except ε α)
  | .ok x, .ok y => decidable_of_iff (x = y) (by simp)
  | .error x, .error y => decidable_of_iff (x = y) (by simp)
  | .ok _, .error _ => isFalse (fun h => Except.noConfusion h)
  | .error _, .ok _ => isFalse (fun h => Except.noConfusion h)

/-- sockets.py `Sockets.try_length_ms = 500`: wait for .5 second at a time. -/
def try_length_ms : Nat := 500

/-- sockets.py `Sockets.intervals_ms`, finite branch (lines 90-94):
`whole_intervals, part_interval = divmod(timeout_ms, self.try_length_ms)`,
then yield `try_length_ms` once per whole interval and finally yield
`part_interval` (unconditionally). -/
def intervals_list (timeout_ms : Nat) : List Nat :=
  List.replicate (timeout_ms / try_length_ms) try_length_ms ++
    [timeout_ms % try_length_ms]

/-- sockets.py `Sockets.intervals_ms` as the stream of yielded values:
`intervals_ms timeout n` is the n-th yielded interval, `none` once the
generator is exhausted.  `timeout = none` models `config.FOREVER` (the
branch `while True: yield self.try_length_ms`). -/
def intervals_ms (timeout_ms : Option Nat) (n : Nat) : Option Nat :=
  match timeout_ms with
  | none => some try_length_ms
  | some t => (intervals_list t)[n]?

/-- Poll loop of sockets.py `Sockets._receive_with_timeout` (lines 109-114)
over a list of intervals.  `ready i` models whether the target socket is in
the dict returned by the i-th call `self._poller.poll(interval_ms)`; `recv`
models `socket.recv()`.  The `for/else` raises `core.SocketTimedOutError`
when the interval sequence is exhausted without readiness. -/
def poll_loop (ready : Nat → Bool) (recv : List Nat) :
    List Nat → Nat → Except PyExc (List Nat)
  | [], _ => Except.error PyExc.socketTimedOut
  | _ :: rest, i =>
    if ready i then Except.ok recv else poll_loop ready recv rest (i + 1)

/-- sockets.py `Sockets._receive_with_timeout` for a finite timeout.  The
source converts a finite `timeout_secs` to `timeout_ms = int(1000 *
timeout_secs)`; the embedding takes the millisecond value directly. -/
def receive_with_timeout (ready : Nat → Bool) (recv : List Nat)
    (timeout_ms : Nat) : Except PyExc (List Nat) :=
  poll_loop ready recv (intervals_list timeout_ms) 0

/-- sockets.py `PUBSUB_DELIMETER = b"\x00"`: the single delimiter byte. -/
def PUBSUB_DELIMETER : Nat := 0

/-- sockets.py `_serialise_for_pubsub(topic, data)`: returns
`topic.encode(config.ENCODING) + PUBSUB_DELIMETER + marshal.dumps(data)`.
The topic is taken already encoded (a byte list), and `ser` stands for
`_serialise` (marshal.dumps), an external collaborator. -/
def serialise_for_pubsub {α : Type} (ser : α → List Nat)
    (topic_bytes : List Nat) (data : α) : List Nat :=
  topic_bytes ++ [PUBSUB_DELIMETER] ++ ser data

/-- Python `message_bytes.split(PUBSUB_DELIMETER, maxsplit=1)` followed by
the two-element unpacking of sockets.py line 25: split at the first
occurrence of the delimiter; `none` when the delimiter does not occur (the
unpacking then raises ValueError). -/
def splitOnceAt (delim : Nat) : List Nat → Option (List Nat × List Nat)
  | [] => none
  | b :: rest =>
    if b = delim then some ([], rest)
    else
      match splitOnceAt delim rest with
      | some (pre, post) => some (b :: pre, post)
      | none => none

/-- sockets.py `_unserialise_for_pubsub(message_bytes)`: split on the first
delimiter, return the decoded topic and the unmarshalled data.  `deser`
stands for `_unserialise` (marshal.loads); the topic side is returned as
its bytes (decoding the topic text is the identity on the byte level). -/
def unserialise_for_pubsub {α : Type} (deser : List Nat → Option α)
    (bs : List Nat) : Option (List Nat × α) :=
  match splitOnceAt PUBSUB_DELIMETER bs with
  | none => none
  | some (topic_bytes, data_bytes) =>
    match deser data_bytes with
    | some v => some (topic_bytes, v)
    | none => none

/-- Concrete serializer used by witnesses: `serN` tags a natural and `deserN`
undoes it (a stand-in for marshal satisfying the round-trip contract).  The
encoding of 0 contains a delimiter byte on purpose, exercising the
first-occurrence split. -/
def serN (n : Nat) : List Nat := [0, n]

/-- Concrete deserializer inverse to `serN`. -/
def deserN : List Nat → Option Nat
  | [0, m] => some m
  | _ => none

/-- Environment of external collaborators for the registries:
`norm` models `core.address` (address normalization; `none` models a raised
InvalidAddressError), and `connectOk`/`bindOk` model whether the zmq
transport's connect/bind calls succeed. -/
structure Env where
  norm : String → Option String
  connectOk : Bool
  bindOk : Bool

/-- Connect/bind action a socket performs when its address is assigned. -/
inductive SockAction where
  | connect
  | bind
  | skip
deriving DecidableEq, Repr

/-- sockets.py `Socket._set_address` (lines 35-41): connect for zmq.REQ and
zmq.SUB, bind for zmq.REP and zmq.PUB.  The code has no else branch; with
the four zmq socket types the fall-through (`skip`) is unreachable. -/
def set_address_action (ty : Role) : SockAction :=
  if ty = Role.REQ ∨ ty = Role.SUB then SockAction.connect
  else if ty = Role.REP ∨ ty = Role.PUB then SockAction.bind
  else SockAction.skip

/-- Outcome of asking the transport to perform a connect/bind action. -/
def Env.perform (env : Env) : SockAction → Except PyExc Unit
  | SockAction.connect =>
    if env.connectOk then Except.ok () else Except.error PyExc.zmqError
  | SockAction.bind =>
    if env.bindOk then Except.ok () else Except.error PyExc.zmqError
  | SockAction.skip => Except.ok ()

/-- A socket created by sockets.py `context.socket` + `Socket._set_address`:
its identity (allocation number), normalized address, zmq type, and the
action it performed when the address was assigned. -/
structure SSocket where
  id : Nat
  address : String
  ty : Role
  action : SockAction
deriving DecidableEq, Repr

/-- State of the sockets.py `Sockets` registry: `self._sockets` (a dict
keyed by (normalized address, type), kept in insertion order), the ids
registered with `self._poller`, and an allocation counter providing socket
identities. -/
structure SState where
  sockets : List ((String × Role) × SSocket)
  poller : List Nat
  counter : Nat
deriving DecidableEq, Repr

/-- Dictionary lookup in an insertion-ordered association list. -/
def findAssoc {κ ν : Type} [DecidableEq κ] : List (κ × ν) → κ → Option ν
  | [], _ => none
  | (k', v) :: rest, k => if k' = k then some v else findAssoc rest k

/-- The initial, empty sockets.py registry. -/
def sInit : SState := ⟨[], [], 0⟩

/-- sockets.py `Sockets.get_socket` (lines 65-80): normalize the address
with `core.address`; on a cache miss create a socket, assign its address
(connect or bind per `Socket._set_address`), register it with the poller
(unconditionally), and cache it last — the code comments that an earlier
exception must leave the socket uncached.  Returns the Python result (the
socket, or the raised exception) together with the state after the call. -/
def s_get_socket (env : Env) (s : SState) (address : String) (ty : Role) :
    Except PyExc SSocket × SState :=
  match env.norm address with
  | none => (Except.error PyExc.invalidAddress, s)
  | some caddress =>
    match findAssoc s.sockets (caddress, ty) with
    | some sock => (Except.ok sock, s)
    | none =>
      let sock : SSocket := ⟨s.counter, caddress, ty, set_address_action ty⟩
      let s1 : SState := { s with counter := s.counter + 1 }
      match env.perform (set_address_action ty) with
      | Except.error e => (Except.error e, s1)
      | Except.ok _ =>
        let s2 : SState := { s1 with poller := s1.poller ++ [sock.id] }
        let s3 : SState :=
          { s2 with sockets := s2.sockets ++ [((caddress, ty), sock)] }
        (Except.ok sock, s3)

/-- Action messaging.py `Sockets.get_socket` performs after creating a
socket (lines 64-67): connect for zmq.REQ, bind for zmq.REP, and nothing
for any other type. -/
def m_action (ty : Role) : SockAction :=
  if ty = Role.REQ then SockAction.connect
  else if ty = Role.REP then SockAction.bind
  else SockAction.skip

/-- A socket held by the messaging.py registry: its identity, zmq type, and
the connect/bind action it has successfully performed (`skip` when none). -/
structure MSocket where
  id : Nat
  ty : Role
  action : SockAction
deriving DecidableEq, Repr

/-- State of the messaging.py `Sockets` registry: `self._sockets` keyed by
address alone, the ids registered with `self._poller`, and an allocation
counter. -/
structure MState where
  sockets : List (String × MSocket)
  poller : List Nat
  counter : Nat
deriving DecidableEq, Repr

/-- The initial, empty messaging.py registry. -/
def mInit : MState := ⟨[], [], 0⟩

/-- Replace the value cached under a key (models mutation of the socket
object reachable through the dict). -/
def updateAssoc {κ ν : Type} [DecidableEq κ] :
    List (κ × ν) → κ → ν → List (κ × ν)
  | [], _, _ => []
  | (k', v') :: rest, k, v =>
    if k' = k then (k, v) :: rest else (k', v') :: updateAssoc rest k v

/-- messaging.py `Sockets.get_socket` (lines 54-70): look the address up in
the cache; a cached socket of a different type raises
`exc.SocketAlreadyExistsError`, one of the same type is returned.  On a
miss the new socket is stored in the cache first (line 63), then connected
(zmq.REQ) or bound (zmq.REP) — a connect/bind failure propagates and leaves
the cache entry in place — and finally registered with the poller when the
type is zmq.REQ or zmq.REP.  Returns the Python result together with the
state after the call. -/
def m_get_socket (env : Env) (s : MState) (address : String) (ty : Role) :
    Except PyExc MSocket × MState :=
  match findAssoc s.sockets address with
  | some sock =>
    if sock.ty ≠ ty then (Except.error PyExc.socketAlreadyExists, s)
    else (Except.ok sock, s)
  | none =>
    let sock : MSocket := ⟨s.counter, ty, SockAction.skip⟩
    let s1 : MState := { s with counter := s.counter + 1,
                                sockets := s.sockets ++ [(address, sock)] }
    match env.perform (m_action ty) with
    | Except.error e => (Except.error e, s1)
    | Except.ok _ =>
      let sock' : MSocket := { sock with action := m_action ty }
      let s2 : MState :=
        { s1 with sockets := updateAssoc s1.sockets address sock' }
      let s3 : MState :=
        if ty = Role.REQ ∨ ty = Role.REP
        then { s2 with poller := s2.poller ++ [sock'.id] } else s2
      (Except.ok sock', s3)

/-- Environment in which normalization is the identity and the transport's
connect and bind both succeed. -/
def envOk : Env := ⟨fun a => some a, true, true⟩

/-- Environment in which the transport's connect fails. -/
def envNoConn : Env := ⟨fun a => some a, false, true⟩

/-- The sockets.py registry after caching a zmq.REP socket for address "a". -/
def sStateREP : SState := (s_get_socket envOk sInit "a" Role.REP).2

/-- The messaging.py registry after caching a zmq.REP socket for address
"a". -/
def mStateREP : MState := (m_get_socket envOk mInit "a" Role.REP).2

/-- Run a sequence of get_socket calls against the sockets.py registry. -/
def s_run (env : Env) (s : SState) : List (String × Role) → SState
  | [] => s
  | (a, ty) :: rest => s_run env (s_get_socket env s a ty).2 rest

/-- Run a sequence of get_socket calls against the messaging.py registry. -/
def m_run (env : Env) (s : MState) : List (String × Role) → MState
  | [] => s
  | (a, ty) :: rest => m_run env (m_get_socket env s a ty).2 rest

/-- Poll set contents of the sockets.py registry: the poller holds exactly
the cached endpoints — of every role, PUBLISHER included. -/
def s_pollInv (s : SState) : Prop :=
  s.poller = s.sockets.map (fun kv => kv.2.id)

/-- Poll set contents of the messaging.py registry: the poller holds exactly
the cached endpoints whose type is zmq.REQ or zmq.REP. -/
def m_pollInv (s : MState) : Prop :=
  s.poller = (s.sockets.filter
    (fun kv => kv.2.ty == Role.REQ || kv.2.ty == Role.REP)).map
      (fun kv => kv.2.id)

/-- messaging.py `Sockets._receive_with_timeout` (lines 72-80).  For the
`config.FOREVER` sentinel (`none`) the code blocks in `socket.recv()`; the
model assumes a message eventually arrives and returns it.  For a finite
timeout the code polls once for `1000 * timeout_secs` ms (`ready` models
whether the target socket is in the returned ready dict); when the socket
is not ready, line 80 executes `raise SocketTimedOutError` where that bare
name is unbound in the module (only `exc.SocketTimedOutError` is
importable), so Python raises NameError at that point. -/
def m_receive_with_timeout (ready : Bool) (recv : List Nat)
    (timeout_secs : Option Nat) : Except PyExc (List Nat) :=
  match timeout_secs with
  | none => Except.ok recv
  | some _ =>
    if ready then Except.ok recv else Except.error PyExc.nameError

/-- messaging.py `send_request` / `Sockets.send_request` (lines 86-89,
95-96): send the request on the zmq.REQ socket (modelled as always
succeeding), then await the reply via `_receive_with_timeout`; any
exception propagates to the caller. -/
def m_send_request (ready : Bool) (recv : List Nat)
    (timeout_secs : Option Nat) : Except PyExc (List Nat) :=
  m_receive_with_timeout ready recv timeout_secs

/-- messaging.py `send_command` (lines 104-108): call `send_request`,
catching only `exc.SocketTimedOutError` (which is logged as a warning);
any other exception propagates.  The function returns None either way. -/
def m_send_command (ready : Bool) (recv : List Nat)
    (timeout_secs : Option Nat) : Except PyExc Unit :=
  match m_send_request ready recv timeout_secs with
  | Except.ok _ => Except.ok ()
  | Except.error PyExc.socketTimedOut => Except.ok ()
  | Except.error e => Except.error e

/-- sockets.py `Sockets.wait_for_notification` (lines 137-145): fetch the
zmq.SUB socket, subscribe to the topic, receive with timeout, decode the
pub/sub envelope and return the (topic, data) pair; a
`core.SocketTimedOutError` is caught and (None, None) returned, while any
other exception propagates.  The subscription filtering and the socket are
abstracted into the `ready`/`wire` transport environment; `deser` models
`_unserialise` (marshal.loads), and a failed envelope unpacking is the
propagated ValueError. -/
def wait_for_notification {α : Type} (deser : List Nat → Option α)
    (ready : Nat → Bool) (wire : List Nat) (timeout_ms : Nat) :
    Except PyExc (Option (List Nat) × Option α) :=
  match receive_with_timeout ready wire timeout_ms with
  | Except.ok bs =>
    match unserialise_for_pubsub deser bs with
    | some (topic, v) => Except.ok (some topic, some v)
    | none => Except.error PyExc.valueError
  | Except.error PyExc.socketTimedOut => Except.ok (none, none)
  | Except.error e => Except.error e

theorem intervals_list_ne_nil (t : Nat) : intervals_list t ≠ [] := by
  simp [intervals_list]

theorem poll_loop_all_false (ready : Nat → Bool) (recv : List Nat)
    (h : ∀ i, ready i = false) :
    ∀ (l : List Nat) (i : Nat),
      poll_loop ready recv l i = Except.error PyExc.socketTimedOut := by
  intro l
  induction l with
  | nil => intro i; rfl
  | cons a rest ih => intro i; simp [poll_loop, h i, ih (i + 1)]

theorem poll_loop_hit (ready : Nat → Bool) (recv : List Nat) :
    ∀ (l : List Nat) (i : Nat),
      (∃ j, j < l.length ∧ ready (i + j) = true) →
      poll_loop ready recv l i = Except.ok recv := by
  intro l
  induction l with
  | nil => intro i h; exact absurd h.choose_spec.1 (by simp)
  | cons a rest ih =>
    intro i h
    obtain ⟨j, hj, hr⟩ := h
    by_cases h0 : ready i = true
    · simp [poll_loop, h0]
    · have hj0 : j ≠ 0 := by
        intro e; rw [e, Nat.add_zero] at hr; exact h0 hr
      simp only [poll_loop, h0, if_false, Bool.false_eq_true]
      exact ih (i + 1) ⟨j - 1, by simp only [List.length_cons] at hj; omega,
        by rw [show i + 1 + (j - 1) = i + j by omega]; exact hr⟩

/-- C4: for every finite timeout in milliseconds, the interval lengths
yielded by `intervals_ms` sum exactly to the timeout, and every interval is
at most the fixed 500 ms length (all intervals are naturals, hence
non-negative). -/
theorem intervals_sum_eq_timeout (t : Nat) :
    (intervals_list t).sum = t ∧
    ∀ x ∈ intervals_list t, x ≤ try_length_ms := by
  constructor
  · simp only [intervals_list, try_length_ms, List.sum_append,
      List.sum_replicate, List.sum_cons, List.sum_nil, smul_eq_mul]
    omega
  · intro x hx
    rcases List.mem_append.mp hx with h | h
    · exact le_of_eq (List.eq_of_mem_replicate h)
    · have : x = t % try_length_ms := by simpa using h
      subst this
      exact Nat.le_of_lt (Nat.mod_lt _ (by norm_num [try_length_ms]))

/-- C4 witness: at timeout 1234 ms the intervals sum to 1234 and the
remainder interval 234 (a member of the sequence) is at most 500. -/
theorem intervals_sum_eq_timeout_witness :
    (intervals_list 1234).sum = 1234 ∧ 234 ≤ try_length_ms :=
  ⟨(intervals_sum_eq_timeout 1234).1,
   (intervals_sum_eq_timeout 1234).2 234 (by decide)⟩

/-- C3 counterexample: for timeout 1000 ms the remainder is zero, yet the
code still yields the final zero-length interval — the generated sequence is
[500, 500, 0], not [500, 500] as the claim ("skipped when the remainder is
zero") requires. -/
theorem intervals_zero_remainder_yielded_cex :
    intervals_list 1000 = [500, 500, 0] ∧
    intervals_ms (some 1000) 2 = some 0 ∧
    intervals_list 1000 ≠ [500, 500] := by
  refine ⟨by decide, by decide, by decide⟩

/-- C3 amended: if the timeout is the infinite sentinel, every yielded
interval is the fixed 500 ms length; if the timeout is finite, the sequence
consists of exactly timeout / 500 full 500 ms intervals followed by one
final partial interval equal to the remainder, and that final interval is
always yielded, including when the remainder is zero. -/
theorem intervals_shape_amended :
    (∀ n, intervals_ms none n = some try_length_ms) ∧
    (∀ t : Nat,
      (intervals_list t).length = t / try_length_ms + 1 ∧
      (∀ i, i < t / try_length_ms →
        intervals_ms (some t) i = some try_length_ms) ∧
      intervals_ms (some t) (t / try_length_ms) = some (t % try_length_ms) ∧
      (∀ n, t / try_length_ms < n → intervals_ms (some t) n = none)) := by
  refine ⟨fun n => rfl, fun t => ⟨by simp [intervals_list], ?_, ?_, ?_⟩⟩
  · intro i hi
    simp only [intervals_ms, intervals_list]
    rw [List.getElem?_append_left (by simpa using hi)]
    simp [List.getElem?_replicate, hi]
  · simp only [intervals_ms, intervals_list]
    rw [List.getElem?_append_right (by simp)]
    simp
  · intro n hn
    simp only [intervals_ms, intervals_list]
    rw [List.getElem?_eq_none]
    simp; omega

/-- C3 amended witness: at timeout 1000 ms there are 2 full intervals, the
interval at index 1 is 500, the final interval (index 2) is 0, index 3 is
exhausted; the infinite sentinel yields 500 at index 7. -/
theorem intervals_shape_amended_witness :
    intervals_ms none 7 = some try_length_ms ∧
    (intervals_list 1000).length = 3 ∧
    intervals_ms (some 1000) 1 = some try_length_ms ∧
    intervals_ms (some 1000) 2 = some 0 ∧
    intervals_ms (some 1000) 3 = none :=
  ⟨intervals_shape_amended.1 7,
   ((intervals_shape_amended.2 1000).1),
   ((intervals_shape_amended.2 1000).2.1 1 (by decide)),
   ((intervals_shape_amended.2 1000).2.2.1),
   ((intervals_shape_amended.2 1000).2.2.2 3 (by decide))⟩

/-- C10: for every finite timeout, including zero, the interval sequence is
non-empty, so `_receive_with_timeout` polls the poll set at least once
before raising the timeout error; in particular a message already pending
(the socket ready at the very first poll) is received and returned even
when the requested timeout is zero. -/
theorem receive_polls_at_least_once (t : Nat) (ready : Nat → Bool)
    (recv : List Nat) (h : ready 0 = true) :
    intervals_list t ≠ [] ∧
    receive_with_timeout ready recv t = Except.ok recv := by
  refine ⟨intervals_list_ne_nil t, ?_⟩
  exact poll_loop_hit ready recv _ 0
    ⟨0, by simp [intervals_list], by simpa using h⟩

/-- C10 witness: with timeout 0 and a message already pending, the poll
sequence is the non-empty [0] and the pending message [7] is returned. -/
theorem receive_polls_at_least_once_witness :
    intervals_list 0 ≠ [] ∧
    receive_with_timeout (fun _ => true) [7] 0 = Except.ok [7] :=
  receive_polls_at_least_once 0 (fun _ => true) [7] rfl

theorem splitOnceAt_append {topic payload : List Nat}
    (h : PUBSUB_DELIMETER ∉ topic) :
    splitOnceAt PUBSUB_DELIMETER (topic ++ PUBSUB_DELIMETER :: payload) =
      some (topic, payload) := by
  induction topic with
  | nil => simp [splitOnceAt]
  | cons b rest ih =>
    have hb : ¬ b = PUBSUB_DELIMETER := fun e =>
      h (e ▸ List.mem_cons_self b rest)
    simp only [List.cons_append, splitOnceAt, if_neg hb, List.append_eq]
    rw [ih (fun hm => h (List.mem_cons_of_mem b hm))]

theorem unserialise_serialise_eq {α : Type} (ser : α → List Nat)
    (deser : List Nat → Option α) (hrt : ∀ v, deser (ser v) = some v)
    (topic : List Nat) (htop : PUBSUB_DELIMETER ∉ topic) (v : α) :
    unserialise_for_pubsub deser (serialise_for_pubsub ser topic v) =
      some (topic, v) := by
  have hs : serialise_for_pubsub ser topic v =
      topic ++ PUBSUB_DELIMETER :: ser v := by
    simp [serialise_for_pubsub]
  rw [unserialise_for_pubsub, hs, splitOnceAt_append htop]
  simp [hrt v]

/-- C6: for every topic whose encoding contains no delimiter byte and every
value on which the serializer round-trips, decoding the encoded envelope
returns the topic and value unchanged; since the split happens at the first
delimiter occurrence, this holds for arbitrary serialized payloads,
including ones containing delimiter bytes. -/
theorem pubsub_roundtrip {α : Type} (ser : α → List Nat)
    (deser : List Nat → Option α) (hrt : ∀ v, deser (ser v) = some v)
    (topic : List Nat) (htop : PUBSUB_DELIMETER ∉ topic) (v : α) :
    unserialise_for_pubsub deser (serialise_for_pubsub ser topic v) =
      some (topic, v) :=
  unserialise_serialise_eq ser deser hrt topic htop v

theorem deserN_serN : ∀ v, deserN (serN v) = some v := fun _ => rfl

/-- C6 witness: the envelope for topic bytes [114, 111] and value 42
round-trips, even though the serialized payload [0, 42] itself starts with
the delimiter byte. -/
theorem pubsub_roundtrip_witness :
    unserialise_for_pubsub deserN (serialise_for_pubsub serN [114, 111] 42) =
      some ([114, 111], 42) :=
  pubsub_roundtrip serN deserN deserN_serN [114, 111] (by decide) 42

theorem perform_error_eq {env : Env} {a : SockAction} {e : PyExc}
    (h : env.perform a = Except.error e) : e = PyExc.zmqError := by
  cases a <;> simp only [Env.perform] at h <;>
    first
      | (split at h <;> simp_all)
      | simp_all

/-- C1 counterexample: the sockets.py registry already holds an endpoint for
address "a" under the REPLIER role; requesting the mutually exclusive
PUBLISHER role does not fail with a role-conflict error — a second, distinct
endpoint is created and returned. -/
theorem sockets_registry_no_role_conflict_cex :
    findAssoc sStateREP.sockets ("a", Role.REP) =
      some ⟨0, "a", Role.REP, SockAction.bind⟩ ∧
    (s_get_socket envOk sStateREP "a" Role.PUB).1 =
      Except.ok ⟨1, "a", Role.PUB, SockAction.bind⟩ ∧
    (s_get_socket envOk sStateREP "a" Role.PUB).1 ≠
      Except.error PyExc.socketAlreadyExists := by
  refine ⟨rfl, rfl, by decide⟩

/-- C1 amended: the messaging.py registry (keyed by address alone) raises
SocketAlreadyExistsError — the specification's RoleConflictError — whenever
the cached endpoint's role differs from the requested one, and returns the
cached endpoint with the registry unchanged when the role is the same; the
sockets.py registry (keyed by (address, role)) returns the cached endpoint
unchanged for the same role but performs no role-conflict detection at all:
no call to it can produce the role-conflict error. -/
theorem registry_role_conflict_amended :
    (∀ (env : Env) (s : MState) (address : String) (ty : Role)
        (sock : MSocket),
      findAssoc s.sockets address = some sock →
      (sock.ty ≠ ty →
        m_get_socket env s address ty =
          (Except.error PyExc.socketAlreadyExists, s)) ∧
      (sock.ty = ty →
        m_get_socket env s address ty = (Except.ok sock, s))) ∧
    (∀ (env : Env) (s : SState) (address caddress : String) (ty : Role)
        (sock : SSocket),
      env.norm address = some caddress →
      findAssoc s.sockets (caddress, ty) = some sock →
      s_get_socket env s address ty = (Except.ok sock, s)) ∧
    (∀ (env : Env) (s : SState) (address : String) (ty : Role),
      (s_get_socket env s address ty).1 ≠
        Except.error PyExc.socketAlreadyExists) := by
  refine ⟨?_, ?_, ?_⟩
  · intro env s address ty sock hfind
    constructor
    · intro hne
      simp [m_get_socket, hfind, hne]
    · intro heq
      simp [m_get_socket, hfind, heq]
  · intro env s address caddress ty sock hnorm hfind
    simp [s_get_socket, hnorm, hfind]
  · intro env s address ty
    match hn : env.norm address with
    | none => simp [s_get_socket, hn]
    | some caddress =>
      match hf : findAssoc s.sockets (caddress, ty) with
      | some sock => simp [s_get_socket, hn, hf]
      | none =>
        match hp : env.perform (set_address_action ty) with
        | Except.ok u => simp [s_get_socket, hn, hf, hp]
        | Except.error e =>
          simp [s_get_socket, hn, hf, hp, perform_error_eq hp]

/-- C1 amended witness: with a REPLIER endpoint cached for "a", requesting
PUBLISHER from the messaging.py registry raises SocketAlreadyExistsError,
requesting REPLIER again returns the cached endpoint unchanged in both
registries, and the sockets.py registry yields no role-conflict error. -/
theorem registry_role_conflict_amended_witness :
    m_get_socket envOk mStateREP "a" Role.PUB =
      (Except.error PyExc.socketAlreadyExists, mStateREP) ∧
    m_get_socket envOk mStateREP "a" Role.REP =
      (Except.ok ⟨0, Role.REP, SockAction.bind⟩, mStateREP) ∧
    s_get_socket envOk sStateREP "a" Role.REP =
      (Except.ok ⟨0, "a", Role.REP, SockAction.bind⟩, sStateREP) ∧
    (s_get_socket envOk sStateREP "a" Role.PUB).1 ≠
      Except.error PyExc.socketAlreadyExists :=
  ⟨(registry_role_conflict_amended.1 envOk mStateREP "a" Role.PUB
      ⟨0, Role.REP, SockAction.bind⟩ rfl).1 (by decide),
   (registry_role_conflict_amended.1 envOk mStateREP "a" Role.REP
      ⟨0, Role.REP, SockAction.bind⟩ rfl).2 rfl,
   registry_role_conflict_amended.2.1 envOk sStateREP "a" "a" Role.REP
      ⟨0, "a", Role.REP, SockAction.bind⟩ rfl rfl,
   registry_role_conflict_amended.2.2 envOk sStateREP "a" Role.PUB⟩

/-- C2 counterexample: in the messaging.py registry a failed connect does
leave a partial cache entry — after a zmq.REQ request whose transport
connect fails, the call raises, yet the new (never connected) socket sits in
the previously empty cache. -/
theorem messaging_cache_before_connect_cex :
    (m_get_socket envNoConn mInit "a" Role.REQ).1 =
      Except.error PyExc.zmqError ∧
    (m_get_socket envNoConn mInit "a" Role.REQ).2.sockets =
      [("a", ⟨0, Role.REQ, SockAction.skip⟩)] ∧
    (m_get_socket envNoConn mInit "a" Role.REQ).2.sockets ≠
      mInit.sockets := by
  refine ⟨rfl, rfl, by decide⟩

/-- C2 amended: the sockets.py registry inserts the new endpoint only after
the normalization and bind/connect steps succeed — any failing call leaves
both its cache and its poll set exactly as they were; the messaging.py
registry instead caches the new socket before connecting/binding, so a
failed connect/bind raises with the new entry left in the cache. -/
theorem cache_insert_after_success_amended :
    (∀ (env : Env) (s : SState) (address : String) (ty : Role) (e : PyExc),
      (s_get_socket env s address ty).1 = Except.error e →
      (s_get_socket env s address ty).2.sockets = s.sockets ∧
      (s_get_socket env s address ty).2.poller = s.poller) ∧
    (∀ (env : Env) (s : MState) (address : String) (ty : Role) (e : PyExc),
      findAssoc s.sockets address = none →
      (m_get_socket env s address ty).1 = Except.error e →
      (m_get_socket env s address ty).2.sockets =
        s.sockets ++ [(address, ⟨s.counter, ty, SockAction.skip⟩)]) := by
  constructor
  · intro env s address ty e
    match hn : env.norm address with
    | none => intro _; constructor <;> simp [s_get_socket, hn]
    | some caddress =>
      match hf : findAssoc s.sockets (caddress, ty) with
      | some sock => intro _; constructor <;> simp [s_get_socket, hn, hf]
      | none =>
        match hp : env.perform (set_address_action ty) with
        | Except.ok u => simp [s_get_socket, hn, hf, hp]
        | Except.error e' =>
          intro _
          constructor <;> simp [s_get_socket, hn, hf, hp]
  · intro env s address ty e hfind
    match hp : env.perform (m_action ty) with
    | Except.ok u => simp [m_get_socket, hfind, hp]
    | Except.error e' =>
      intro _
      simp [m_get_socket, hfind, hp]

/-- C2 amended witness: a failing connect against the sockets.py registry
leaves cache and poller empty, while the same call against the messaging.py
registry leaves the unconnected socket cached. -/
theorem cache_insert_after_success_amended_witness :
    ((s_get_socket envNoConn sInit "a" Role.REQ).2.sockets = sInit.sockets ∧
     (s_get_socket envNoConn sInit "a" Role.REQ).2.poller = sInit.poller) ∧
    (m_get_socket envNoConn mInit "a" Role.REQ).2.sockets =
      mInit.sockets ++ [("a", ⟨0, Role.REQ, SockAction.skip⟩)] :=
  ⟨cache_insert_after_success_amended.1 envNoConn sInit "a" Role.REQ
      PyExc.zmqError rfl,
   cache_insert_after_success_amended.2 envNoConn mInit "a" Role.REQ
      PyExc.zmqError rfl rfl⟩

/-- C7 counterexample: the messaging.py registry creates and caches a
PUBLISHER endpoint that performs neither connect nor bind (its
connect/bind dispatch covers only zmq.REQ and zmq.REP), where the claim
requires every created PUBLISHER endpoint to be bound. -/
theorem messaging_pub_no_bind_cex :
    (m_get_socket envOk mInit "a" Role.PUB).1 =
      Except.ok ⟨0, Role.PUB, SockAction.skip⟩ ∧
    findAssoc (m_get_socket envOk mInit "a" Role.PUB).2.sockets "a" =
      some ⟨0, Role.PUB, SockAction.skip⟩ ∧
    SockAction.skip ≠ SockAction.bind := by
  refine ⟨rfl, rfl, by decide⟩

/-- C7 amended: every endpoint the sockets.py registry creates performs
exactly one action per the role decision table — REQUESTER and SUBSCRIBER
connect, REPLIER and PUBLISHER bind; in the messaging.py registry only
REQUESTER connects and only REPLIER binds, while a created PUBLISHER or
SUBSCRIBER endpoint performs neither connect nor bind. -/
theorem role_action_table_amended :
    (set_address_action Role.REQ = SockAction.connect ∧
     set_address_action Role.SUB = SockAction.connect ∧
     set_address_action Role.REP = SockAction.bind ∧
     set_address_action Role.PUB = SockAction.bind) ∧
    (∀ (env : Env) (s : SState) (address caddress : String) (ty : Role)
        (sock : SSocket) (s' : SState),
      env.norm address = some caddress →
      findAssoc s.sockets (caddress, ty) = none →
      s_get_socket env s address ty = (Except.ok sock, s') →
      sock.action = set_address_action ty) ∧
    (m_action Role.REQ = SockAction.connect ∧
     m_action Role.REP = SockAction.bind ∧
     m_action Role.PUB = SockAction.skip ∧
     m_action Role.SUB = SockAction.skip) ∧
    (∀ (env : Env) (s : MState) (address : String) (ty : Role)
        (sock : MSocket) (s' : MState),
      findAssoc s.sockets address = none →
      m_get_socket env s address ty = (Except.ok sock, s') →
      sock.action = m_action ty) := by
  refine ⟨by decide, ?_, by decide, ?_⟩
  · intro env s address caddress ty sock s' hnorm hfind hcall
    match hp : env.perform (set_address_action ty) with
    | Except.error e =>
      simp [s_get_socket, hnorm, hfind, hp] at hcall
    | Except.ok u =>
      simp only [s_get_socket, hnorm, hfind, hp] at hcall
      have h2 : (⟨s.counter, caddress, ty, set_address_action ty⟩ : SSocket) =
          sock := Except.ok.inj (congrArg Prod.fst hcall)
      rw [← h2]
  · intro env s address ty sock s' hfind hcall
    match hp : env.perform (m_action ty) with
    | Except.error e =>
      simp [m_get_socket, hfind, hp] at hcall
    | Except.ok u =>
      simp only [m_get_socket, hfind, hp] at hcall
      have h2 : (⟨s.counter, ty, m_action ty⟩ : MSocket) = sock :=
        Except.ok.inj (congrArg Prod.fst hcall)
      rw [← h2]

/-- C7 amended witness: concrete creations — the sockets.py registry
connects a fresh REQUESTER for "a" and the messaging.py registry leaves a
fresh PUBLISHER for "a" with no action, matching the amended tables. -/
theorem role_action_table_amended_witness :
    set_address_action Role.SUB = SockAction.connect ∧
    (⟨0, "a", Role.REQ, SockAction.connect⟩ : SSocket).action =
      set_address_action Role.REQ ∧
    (⟨0, Role.PUB, SockAction.skip⟩ : MSocket).action = m_action Role.PUB :=
  ⟨role_action_table_amended.1.2.1,
   role_action_table_amended.2.1 envOk sInit "a" "a" Role.REQ
      ⟨0, "a", Role.REQ, SockAction.connect⟩
      (s_get_socket envOk sInit "a" Role.REQ).2 rfl rfl rfl,
   role_action_table_amended.2.2.2 envOk mInit "a" Role.PUB
      ⟨0, Role.PUB, SockAction.skip⟩
      (m_get_socket envOk mInit "a" Role.PUB).2 rfl rfl⟩

theorem updateAssoc_append_fresh {κ ν : Type} [DecidableEq κ]
    (l : List (κ × ν)) (k : κ) (x v : ν) (h : findAssoc l k = none) :
    updateAssoc (l ++ [(k, x)]) k v = l ++ [(k, v)] := by
  induction l with
  | nil => simp [updateAssoc]
  | cons p rest ih =>
    obtain ⟨k', v'⟩ := p
    by_cases hk : k' = k
    · simp [findAssoc, hk] at h
    · simp only [findAssoc, if_neg hk] at h
      simp [updateAssoc, hk, ih h]

theorem s_get_socket_pollInv (env : Env) (s : SState) (a : String)
    (ty : Role) (h : s_pollInv s) : s_pollInv (s_get_socket env s a ty).2 := by
  match hn : env.norm a with
  | none => simpa [s_get_socket, hn] using h
  | some caddress =>
    match hf : findAssoc s.sockets (caddress, ty) with
    | some sock => simpa [s_get_socket, hn, hf] using h
    | none =>
      match hp : env.perform (set_address_action ty) with
      | Except.error e => simpa [s_get_socket, hn, hf, hp] using h
      | Except.ok u =>
        simp only [s_pollInv, s_get_socket, hn, hf, hp] at h ⊢
        simp [h]

theorem m_get_socket_pollInv (env : Env) (hc : env.connectOk = true)
    (hb : env.bindOk = true) (s : MState) (a : String) (ty : Role)
    (h : m_pollInv s) : m_pollInv (m_get_socket env s a ty).2 := by
  match hf : findAssoc s.sockets a with
  | some sock =>
    by_cases hne : sock.ty ≠ ty
    · simpa [m_get_socket, hf, hne] using h
    · simpa [m_get_socket, hf, hne] using h
  | none =>
    have hperf : env.perform (m_action ty) = Except.ok () := by
      unfold Env.perform m_action
      split
      · simp [hc]
      · simp [hb]
      · rfl
    simp only [m_pollInv, m_get_socket, hf, hperf] at h ⊢
    rw [updateAssoc_append_fresh s.sockets a _ _ hf]
    by_cases hty : ty = Role.REQ ∨ ty = Role.REP
    · have : (((⟨s.counter, ty, m_action ty⟩ : MSocket).ty == Role.REQ) ||
          ((⟨s.counter, ty, m_action ty⟩ : MSocket).ty == Role.REP)) = true := by
        rcases hty with h1 | h1 <;> simp [h1]
      simp [hty, List.filter_append, this, h]
    · have : (((⟨s.counter, ty, m_action ty⟩ : MSocket).ty == Role.REQ) ||
          ((⟨s.counter, ty, m_action ty⟩ : MSocket).ty == Role.REP)) = false := by
        rcases ty <;> simp_all
      simp [hty, List.filter_append, this, h]

theorem s_run_pollInv (env : Env) :
    ∀ (calls : List (String × Role)) (s : SState),
      s_pollInv s → s_pollInv (s_run env s calls) := by
  intro calls
  induction calls with
  | nil => intro s h; exact h
  | cons c rest ih =>
    intro s h
    obtain ⟨a, ty⟩ := c
    exact ih _ (s_get_socket_pollInv env s a ty h)

theorem m_run_pollInv (env : Env) (hc : env.connectOk = true)
    (hb : env.bindOk = true) :
    ∀ (calls : List (String × Role)) (s : MState),
      m_pollInv s → m_pollInv (m_run env s calls) := by
  intro calls
  induction calls with
  | nil => intro s h; exact h
  | cons c rest ih =>
    intro s h
    obtain ⟨a, ty⟩ := c
    exact ih _ (m_get_socket_pollInv env hc hb s a ty h)

/-- C8 counterexample: one get_socket call creating a PUBLISHER endpoint in
the sockets.py registry registers it with the poller (registration is
unconditional there), so the poll set does contain a PUBLISHER endpoint. -/
theorem sockets_poller_registers_pub_cex :
    (s_get_socket envOk sInit "a" Role.PUB).2.poller = [0] ∧
    findAssoc (s_get_socket envOk sInit "a" Role.PUB).2.sockets
      ("a", Role.PUB) = some ⟨0, "a", Role.PUB, SockAction.bind⟩ := by
  exact ⟨rfl, rfl⟩

/-- C8 amended: after any sequence of get_socket calls from the initial
state, the sockets.py poll set contains exactly the cached endpoints of
every role, PUBLISHER included; when the transport's connect and bind
succeed, the messaging.py poll set contains exactly the cached endpoints
whose role is REQUESTER or REPLIER — never a PUBLISHER or SUBSCRIBER. -/
theorem pollset_contents_amended (env : Env)
    (calls : List (String × Role)) :
    s_pollInv (s_run env sInit calls) ∧
    (env.connectOk = true → env.bindOk = true →
      m_pollInv (m_run env mInit calls)) :=
  ⟨s_run_pollInv env calls sInit rfl,
   fun hc hb => m_run_pollInv env hc hb calls mInit rfl⟩

/-- C8 amended witness: after creating a PUBLISHER and a SUBSCRIBER through
both registries, the sockets.py poll set equals its full cache contents and
the messaging.py poll set equals its REQ/REP-filtered cache contents. -/
theorem pollset_contents_amended_witness :
    s_pollInv (s_run envOk sInit [("a", Role.PUB), ("b", Role.SUB)]) ∧
    m_pollInv (m_run envOk mInit [("a", Role.PUB), ("b", Role.SUB)]) :=
  ⟨(pollset_contents_amended envOk [("a", Role.PUB), ("b", Role.SUB)]).1,
   (pollset_contents_amended envOk [("a", Role.PUB), ("b", Role.SUB)]).2
     rfl rfl⟩

/-- C5 (code bug): with a finite timeout and the replier never ready,
messaging.py line 80 executes `raise SocketTimedOutError` whose bare name
is unbound (the module only imports `exc`), so the timeout surfaces as
NameError; `send_command`'s `except exc.SocketTimedOutError` clause does
not catch NameError, so send_command propagates the error exactly as
send_request does, instead of logging a warning and returning — the two
verbs do not differ as the claim states. -/
theorem send_command_timeout_raises_nameerror :
    m_send_request false [] (some 1) = Except.error PyExc.nameError ∧
    m_send_command false [] (some 1) = Except.error PyExc.nameError ∧
    m_send_command false [] (some 1) ≠ Except.ok () := by
  refine ⟨rfl, rfl, by decide⟩

/-- C9: when no matching message arrives within the finite timeout,
`wait_for_notification` (the implementation behind wait_for_news) returns
the pair (None, None) without raising; when a well-formed message is ready
at some poll within the interval sequence, it returns the decoded
(topic, news) pair. -/
theorem wait_for_news_timeout_behavior {α : Type} (ser : α → List Nat)
    (deser : List Nat → Option α) (hrt : ∀ v, deser (ser v) = some v)
    (ready : Nat → Bool) (topic : List Nat)
    (htop : PUBSUB_DELIMETER ∉ topic) (v : α) (t : Nat) :
    ((∀ i, ready i = false) →
      wait_for_notification deser ready (serialise_for_pubsub ser topic v)
        t = Except.ok (none, none)) ∧
    ((∃ j, j < (intervals_list t).length ∧ ready j = true) →
      wait_for_notification deser ready (serialise_for_pubsub ser topic v)
        t = Except.ok (some topic, some v)) := by
  constructor
  · intro h
    have hr : receive_with_timeout ready (serialise_for_pubsub ser topic v)
        t = Except.error PyExc.socketTimedOut :=
      poll_loop_all_false ready _ h _ 0
    simp [wait_for_notification, hr]
  · intro h
    obtain ⟨j, hj, hr⟩ := h
    have hrecv : receive_with_timeout ready
        (serialise_for_pubsub ser topic v) t =
        Except.ok (serialise_for_pubsub ser topic v) :=
      poll_loop_hit ready _ _ 0 ⟨j, hj, by simpa using hr⟩
    simp [wait_for_notification, hrecv,
      unserialise_serialise_eq ser deser hrt topic htop v]

/-- C9 witness: with timeout 1200 ms, a never-ready subscriber socket gives
(None, None) without an error, and a socket ready at the first poll gives
the decoded topic [7] and news 3. -/
theorem wait_for_news_timeout_behavior_witness :
    wait_for_notification deserN (fun _ => false)
      (serialise_for_pubsub serN [7] 3) 1200 = Except.ok (none, none) ∧
    wait_for_notification deserN (fun _ => true)
      (serialise_for_pubsub serN [7] 3) 1200 =
      Except.ok (some [7], some 3) :=
  ⟨(wait_for_news_timeout_behavior serN deserN deserN_serN (fun _ => false)
      [7] (by decide) 3 1200).1 (fun i => rfl),
   (wait_for_news_timeout_behavior serN deserN deserN_serN (fun _ => true)
      [7] (by decide) 3 1200).2 ⟨0, by decide, rfl⟩⟩

end NetworkZero
